import Mathlib

/-!
Shallow embedding of the stock-risk evaluator of the PPIC monitoring dashboard
(`src/app.py`; `src/final.py` repeats the same `process_dashboard_data`,
`get_status` and dashboard-sorting code character for character, so one set of
definitions models both files).

The batch path (`process_dashboard_data`, app.py lines 47-64) divides the
pandas float columns directly, so division follows IEEE float semantics:
`x / 0 = +inf` for positive `x`, `-inf` for negative `x`, and `NaN` for
`0 / 0`; no exception is raised.  The simulation path (app.py lines 162-175)
instead guards the division explicitly with
`input_stok / konsumsi_per_jam if konsumsi_per_jam > 0 else float('inf')`.
Finite values are modelled as exact rationals; `PFloat` adds the three
non-finite float values the code can produce.
-/

namespace PPIC

/-- Value of a pandas float cell: a finite rational, `+inf`, `-inf`, or `NaN`. -/
inductive PFloat where
  | fin (q : ℚ)
  | posInf
  | negInf
  | nan
deriving DecidableEq

/-- Subtraction `x - b` of a finite float `b` (IEEE semantics: infinities are
absorbing, `NaN` propagates).  Used for `waktu_habis_stok - lead_time`. -/
def PFloat.subFin : PFloat → ℚ → PFloat
  | .fin a, b => .fin (a - b)
  | .posInf, _ => .posInf
  | .negInf, _ => .negInf
  | .nan, _ => .nan

/-- The Python comparison `x <= 0` on a float cell (every comparison with
`NaN` is `False`). -/
def PFloat.le0 : PFloat → Bool
  | .fin q => decide (q ≤ 0)
  | .posInf => false
  | .negInf => true
  | .nan => false

/-- The Python comparison `x < 0` (`False` on `NaN`); states the spec's
non-negativity invariant for `depletion_time`. -/
def PFloat.isNeg : PFloat → Bool
  | .fin q => decide (q < 0)
  | .posInf => false
  | .negInf => true
  | .nan => false

/-- Ordering used by `sort_values` on a float column: `-inf` below every
finite value, `+inf` above, and `NaN` placed last (pandas default
`na_position='last'`).  A total preorder. -/
def PFloat.leb : PFloat → PFloat → Bool
  | _, .nan => true
  | .nan, _ => false
  | .negInf, _ => true
  | _, .negInf => false
  | _, .posInf => true
  | .posInf, _ => false
  | .fin a, .fin b => decide (a ≤ b)

/-- Round half to even to an integer: the rounding mode of `numpy.round`,
hence of `DataFrame.round`. -/
def rne (q : ℚ) : ℤ :=
  let f : ℤ := ⌊q⌋
  if q - f < 1 / 2 then f
  else if 1 / 2 < q - f then f + 1
  else if f % 2 = 0 then f else f + 1

/-- Round a rational to one decimal place, half to even (`round(1)`). -/
def round1 (q : ℚ) : ℚ := (rne (10 * q) : ℚ) / 10

/-- The effect of `round(1)` on a float cell: `inf` and `NaN` are unchanged. -/
def PFloat.round1 : PFloat → PFloat
  | .fin q => .fin (PPIC.round1 q)
  | x => x

/-- One row of the raw dataset consumed by `process_dashboard_data`: the
columns of `dummy_dataset.csv` that the dashboard reads. -/
structure Obs where
  tanggal : String
  seksi_tujuan : String
  nama_komponen : String
  stok_tersedia : ℚ
  konsumsi_per_jam : ℚ
  lead_time : ℚ
deriving DecidableEq

/-- The four feature columns handed to `model.predict` (app.py lines 53-54):
the consumption rate is *not* part of the classifier input. -/
structure ModelInput where
  seksi_tujuan : String
  nama_komponen : String
  stok_tersedia : ℚ
  lead_time : ℚ
deriving DecidableEq

/-- The injected classifier.  `Except.error` models a raising `predict` call
(the Python code installs no handler around it, so an exception propagates);
`Except.ok` carries the predicted label, a string from the model's own
vocabulary. -/
abbrev Model := ModelInput → Except String String

/-- The `input_data` frame built for one row (app.py lines 53-54). -/
def modelInputOf (o : Obs) : ModelInput :=
  ⟨o.seksi_tujuan, o.nama_komponen, o.stok_tersedia, o.lead_time⟩

/-- App.py line 49: `stok_tersedia / konsumsi_per_jam` as pandas float
division (IEEE): `x / 0` is `+inf` for `x > 0`, `-inf` for `x < 0`, `NaN`
for `0 / 0`; finite otherwise. -/
def waktu_habis_stok (o : Obs) : PFloat :=
  if o.konsumsi_per_jam = 0 then
    if 0 < o.stok_tersedia then .posInf
    else if o.stok_tersedia < 0 then .negInf
    else .nan
  else .fin (o.stok_tersedia / o.konsumsi_per_jam)

/-- App.py line 50: `waktu_habis_stok - lead_time`. -/
def selisih_waktu (o : Obs) : PFloat :=
  (waktu_habis_stok o).subFin o.lead_time

/-- App.py lines 51-56 (identical in final.py lines 102-107): the per-row
status.  A non-positive buffer returns `'Merah'` before the model is
consulted; otherwise the model's prediction is remapped by
`'Kuning' if pred == 'Merah' else pred`.  A raising model propagates. -/
def get_status (model : Model) (o : Obs) : Except String String :=
  if (selisih_waktu o).le0 then Except.ok "Merah"
  else
    match model (modelInputOf o) with
    | Except.error e => Except.error e
    | Except.ok pred => Except.ok (if pred = "Merah" then "Kuning" else pred)

/-- The derived quantities of one evaluation: depletion time, buffer time and
final status (§3 of the spec calls this a `RiskAssessment`). -/
structure RiskAssessment where
  waktu_habis_stok : PFloat
  selisih_waktu : PFloat
  status : String
deriving DecidableEq

/-- One full evaluation of an observation: the computed columns of
`process_dashboard_data` for one row, bundled. -/
def evaluate (model : Model) (o : Obs) : Except String RiskAssessment :=
  match get_status model o with
  | Except.error e => Except.error e
  | Except.ok s => Except.ok ⟨waktu_habis_stok o, selisih_waktu o, s⟩

/-- One row of the returned dashboard table (app.py lines 58-64): selected
columns, renamed, every numeric column passed through `round(1)`. -/
structure ResultRow where
  Tanggal : String
  SeksiTujuan : String
  NamaKomponen : String
  Status : String
  Stok : ℚ
  SisaWaktuJam : PFloat
  LeadTimeJam : ℚ
  BufferWaktuJam : PFloat
deriving DecidableEq

/-- Builds the output row for one observation with its computed status. -/
def resultRow (o : Obs) (status : String) : ResultRow :=
  ⟨o.tanggal, o.seksi_tujuan, o.nama_komponen, status,
   round1 o.stok_tersedia, (waktu_habis_stok o).round1,
   round1 o.lead_time, (selisih_waktu o).round1⟩

/-- Status plus output-row construction for one observation. -/
def evalRow (model : Model) (o : Obs) : Except String ResultRow :=
  match get_status model o with
  | Except.error e => Except.error e
  | Except.ok s => Except.ok (resultRow o s)

/-- App.py lines 47-64: `dashboard_df.apply(get_status, axis=1)` followed by
select, rename and `round(1)`.  An exception raised by the model on any row
propagates out of `DataFrame.apply`, so the whole call either returns one
output row per input row or fails as a whole with the first raised error. -/
def process_dashboard_data (model : Model) : List Obs → Except String (List ResultRow)
  | [] => Except.ok []
  | o :: rest =>
    match evalRow model o with
    | Except.error e => Except.error e
    | Except.ok r =>
      match process_dashboard_data model rest with
      | Except.error e => Except.error e
      | Except.ok rs => Except.ok (r :: rs)

/-- App.py line 167, simulation tab: depletion time with the explicit guard
`input_stok / konsumsi_per_jam if konsumsi_per_jam > 0 else float('inf')`. -/
def sim_waktu_habis_stok (stok konsumsi : ℚ) : PFloat :=
  if 0 < konsumsi then .fin (stok / konsumsi) else .posInf

/-- App.py line 168, simulation tab: `waktu_habis_stok - input_lead_time`. -/
def sim_selisih_waktu (stok konsumsi lead : ℚ) : PFloat :=
  (sim_waktu_habis_stok stok konsumsi).subFin lead

/-- App.py lines 170-175, simulation tab: the same short-circuit and
remapping as `get_status`, written out in the button handler. -/
def simulate (model : Model) (seksi komponen : String) (stok konsumsi lead : ℚ) :
    Except String String :=
  if (sim_selisih_waktu stok konsumsi lead).le0 then Except.ok "Merah"
  else
    match model ⟨seksi, komponen, stok, lead⟩ with
    | Except.error e => Except.error e
    | Except.ok pred => Except.ok (if pred = "Merah" then "Kuning" else pred)

/-- App.py line 132: `{'Merah': 0, 'Kuning': 1, 'Hijau': 2}`.  `Series.map`
yields `NaN` on any other label and pandas sorts `NaN` last; key 3 models
that. -/
def statusKey (s : String) : ℕ :=
  if s = "Merah" then 0 else if s = "Kuning" then 1 else if s = "Hijau" then 2 else 3

/-- App.py line 133: the lexicographic comparison realised by
`sort_values(by=['SortKey', 'Buffer Waktu (Jam)'])`. -/
def rowLe (r1 r2 : ResultRow) : Bool :=
  decide (statusKey r1.Status < statusKey r2.Status) ||
    (decide (statusKey r1.Status = statusKey r2.Status) &&
      r1.BufferWaktuJam.leb r2.BufferWaktuJam)

/-- The displayed ordering of the dashboard table (app.py lines 132-133). -/
def sortDashboard (rows : List ResultRow) : List ResultRow :=
  rows.mergeSort rowLe

/-- The three-level status vocabulary of the dashboard. -/
def triLabels : List String := ["Merah", "Kuning", "Hijau"]

/-- Concrete scenario A of the spec: stock 100, rate 10, lead time 5. -/
def obsA : Obs := ⟨"2024-01-01", "Assy", "Bolt", 100, 10, 5⟩

/-- Concrete scenario B of the spec: stock 20, rate 10, lead time 5
(buffer -3, deterministically critical). -/
def obsB : Obs := ⟨"2024-01-01", "Assy", "Bolt", 20, 10, 5⟩

/-- Concrete scenario C of the spec: stock 60, rate 10, lead time 5
(buffer 1, the classifier is consulted). -/
def obsC : Obs := ⟨"2024-01-01", "Assy", "Bolt", 60, 10, 5⟩

/-- Degenerate corner: zero stock and zero consumption rate. -/
def obs00 : Obs := ⟨"2024-01-01", "Assy", "Bolt", 0, 0, 5⟩

/-- Observation with exact buffer 13/4 - 2 = 5/4 = 1.25. -/
def obsP : Obs := ⟨"2024-01-01", "Assy", "Bolt", 13/4, 1, 2⟩

/-- Observation with exact buffer 105/32 - 2 = 41/32 = 1.28125. -/
def obsQ : Obs := ⟨"2024-01-01", "Assy", "Bolt", 105/32, 1, 2⟩

lemma obsB_buffer_nonpos : (selisih_waktu obsB).le0 = true := by
  norm_num [selisih_waktu, waktu_habis_stok, PFloat.subFin, PFloat.le0, obsB]

lemma obsC_buffer_pos : (selisih_waktu obsC).le0 = false := by
  norm_num [selisih_waktu, waktu_habis_stok, PFloat.subFin, PFloat.le0, obsC]

lemma obsA_buffer_pos : (selisih_waktu obsA).le0 = false := by
  norm_num [selisih_waktu, waktu_habis_stok, PFloat.subFin, PFloat.le0, obsA]

/-- C1: for every observation whose buffer time `selisih_waktu` is
non-positive, the evaluator returns status `'Merah'` with the computed
depletion and buffer times, *for every injected classifier* — in particular
for a classifier stub that raises — which is exactly the statement that the
classifier is never invoked on that observation.  Both the batch path
(`evaluate`/`get_status`) and the simulation handler (`simulate`) are
covered. -/
theorem buffer_nonpos_is_merah_without_classifier :
    (∀ (o : Obs), (selisih_waktu o).le0 = true →
       ∀ (model : Model),
         evaluate model o = Except.ok ⟨waktu_habis_stok o, selisih_waktu o, "Merah"⟩)
  ∧ (∀ (stok konsumsi lead : ℚ), (sim_selisih_waktu stok konsumsi lead).le0 = true →
       ∀ (model : Model) (seksi komponen : String),
         simulate model seksi komponen stok konsumsi lead = Except.ok "Merah") := by
  constructor
  · intro o h model
    simp [evaluate, get_status, h]
  · intro stok konsumsi lead h model seksi komponen
    simp [simulate, h]

theorem buffer_nonpos_is_merah_without_classifier_witness :
    ((selisih_waktu obsB).le0 = true ∧
      evaluate (fun _ => Except.error "classifier down") obsB =
        Except.ok ⟨waktu_habis_stok obsB, selisih_waktu obsB, "Merah"⟩) ∧
    ((sim_selisih_waktu 20 10 5).le0 = true ∧
      simulate (fun _ => Except.error "classifier down") "Assy" "Bolt" 20 10 5 =
        Except.ok "Merah") := by
  have h1 : (selisih_waktu obsB).le0 = true := obsB_buffer_nonpos
  have h2 : (sim_selisih_waktu 20 10 5).le0 = true := by
    norm_num [sim_selisih_waktu, sim_waktu_habis_stok, PFloat.subFin, PFloat.le0]
  exact ⟨⟨h1, buffer_nonpos_is_merah_without_classifier.1 obsB h1 _⟩,
         ⟨h2, buffer_nonpos_is_merah_without_classifier.2 20 10 5 h2 _ "Assy" "Bolt"⟩⟩

/-- C2: when the buffer is positive and the consulted classifier returns its
critical label `'Merah'`, the returned status is `'Kuning'` (Watch), and in
particular never `'Hijau'` (Safe). -/
theorem model_merah_downgraded_to_kuning :
    ∀ (model : Model) (o : Obs),
      (selisih_waktu o).le0 = false →
      model (modelInputOf o) = Except.ok "Merah" →
      get_status model o = Except.ok "Kuning" ∧
        get_status model o ≠ Except.ok "Hijau" := by
  intro model o h hm
  simp [get_status, h, hm]

theorem model_merah_downgraded_to_kuning_witness :
    (selisih_waktu obsC).le0 = false ∧
    get_status (fun _ => Except.ok "Merah") obsC = Except.ok "Kuning" :=
  ⟨obsC_buffer_pos,
   (model_merah_downgraded_to_kuning _ obsC obsC_buffer_pos rfl).1⟩

/-- C4: when the buffer is positive and the consulted classifier returns any
label other than `'Merah'`, that label is returned unchanged as the final
status. -/
theorem noncritical_label_passes_through :
    ∀ (model : Model) (o : Obs) (l : String),
      (selisih_waktu o).le0 = false →
      model (modelInputOf o) = Except.ok l →
      l ≠ "Merah" →
      get_status model o = Except.ok l := by
  intro model o l h hm hl
  simp [get_status, h, hm, hl]

theorem noncritical_label_passes_through_witness :
    (selisih_waktu obsC).le0 = false ∧
    get_status (fun _ => Except.ok "Hijau") obsC = Except.ok "Hijau" :=
  ⟨obsC_buffer_pos,
   noncritical_label_passes_through _ obsC "Hijau" obsC_buffer_pos rfl (by decide)⟩

/-- C5: when the buffer is positive and the classifier invocation fails, the
evaluator surfaces exactly that fault to the caller and never returns any
substituted status for the observation. -/
theorem classifier_failure_surfaces_error :
    ∀ (model : Model) (o : Obs) (e : String),
      (selisih_waktu o).le0 = false →
      model (modelInputOf o) = Except.error e →
      evaluate model o = Except.error e ∧
        ∀ a : RiskAssessment, evaluate model o ≠ Except.ok a := by
  intro model o e h hm
  constructor
  · simp [evaluate, get_status, h, hm]
  · intro a
    simp [evaluate, get_status, h, hm]

theorem classifier_failure_surfaces_error_witness :
    (selisih_waktu obsC).le0 = false ∧
    evaluate (fun _ => Except.error "classifier down") obsC =
      Except.error "classifier down" :=
  ⟨obsC_buffer_pos,
   (classifier_failure_surfaces_error _ obsC "classifier down"
      obsC_buffer_pos rfl).1⟩

/-- C8: the evaluation is a pure function of the observation and the injected
classifier: two successful evaluations of identical inputs carry identical
depletion time, buffer time and status. -/
theorem evaluate_deterministic :
    ∀ (model : Model) (o : Obs) (a1 a2 : RiskAssessment),
      evaluate model o = Except.ok a1 →
      evaluate model o = Except.ok a2 →
      a1.waktu_habis_stok = a2.waktu_habis_stok ∧
        a1.selisih_waktu = a2.selisih_waktu ∧ a1.status = a2.status := by
  intro model o a1 a2 h1 h2
  rw [h1] at h2
  injection h2 with h3
  subst h3
  exact ⟨rfl, rfl, rfl⟩

theorem evaluate_deterministic_witness :
    evaluate (fun _ => Except.ok "Hijau") obsA =
      Except.ok ⟨PFloat.fin 10, PFloat.fin 5, "Hijau"⟩ ∧
    (⟨PFloat.fin 10, PFloat.fin 5, "Hijau"⟩ : RiskAssessment).status =
      (⟨PFloat.fin 10, PFloat.fin 5, "Hijau"⟩ : RiskAssessment).status := by
  have h : evaluate (fun _ => Except.ok "Hijau") obsA =
      Except.ok ⟨PFloat.fin 10, PFloat.fin 5, "Hijau"⟩ := by
    norm_num [evaluate, get_status, selisih_waktu, waktu_habis_stok,
      PFloat.subFin, PFloat.le0, obsA]
    decide
  exact ⟨h, (evaluate_deterministic _ obsA _ _ h h).2.2⟩

/-- C9: the evaluator performs no validation of the classifier's vocabulary.
If every label the classifier can return lies in `{Merah, Kuning, Hijau}`,
then every successful status lies in that set; and there is a classifier with
an out-of-vocabulary label (`'Ungu'`) whose label is returned verbatim as the
final status, outside the three-level set. -/
theorem status_vocabulary_closure :
    (∀ (model : Model) (o : Obs) (s : String),
       (∀ i l, model i = Except.ok l → l ∈ triLabels) →
       get_status model o = Except.ok s → s ∈ triLabels)
  ∧ (∃ (model : Model) (o : Obs),
       get_status model o = Except.ok "Ungu" ∧ "Ungu" ∉ triLabels) := by
  constructor
  · intro model o s hrange hs
    cases h : (selisih_waktu o).le0 with
    | true =>
      simp [get_status, h] at hs
      simp [← hs, triLabels]
    | false =>
      cases hm : model (modelInputOf o) with
      | error e => simp [get_status, h, hm] at hs
      | ok l =>
        have hl := hrange _ _ hm
        simp [get_status, h, hm] at hs
        by_cases hmer : l = "Merah"
        · simp [hmer] at hs
          simp [← hs, triLabels]
        · simp [hmer] at hs
          rw [← hs]
          exact hl
  · refine ⟨fun _ => Except.ok "Ungu", obsC, ?_, by decide⟩
    simp [get_status, obsC_buffer_pos]

theorem status_vocabulary_closure_witness :
    "Hijau" ∈ triLabels := by
  refine status_vocabulary_closure.1 (fun _ => Except.ok "Hijau") obsC "Hijau" ?_ ?_
  · intro i l h
    injection h with h2
    rw [← h2]
    decide
  · simp [get_status, obsC_buffer_pos]

lemma PFloat.leb_refl (x : PFloat) : x.leb x = true := by
  cases x <;> simp [PFloat.leb]

lemma PFloat.leb_trans :
    ∀ x y z : PFloat, x.leb y = true → y.leb z = true → x.leb z = true := by
  intro x y z h1 h2
  cases x <;> cases y <;> cases z <;> simp_all [PFloat.leb]
  linarith

lemma PFloat.leb_total : ∀ x y : PFloat, (x.leb y || y.leb x) = true := by
  intro x y
  cases x <;> cases y <;> simp [PFloat.leb]
  exact le_total _ _

lemma rowLe_trans :
    ∀ r1 r2 r3 : ResultRow,
      rowLe r1 r2 = true → rowLe r2 r3 = true → rowLe r1 r3 = true := by
  intro r1 r2 r3 h1 h2
  simp only [rowLe, Bool.or_eq_true, Bool.and_eq_true, decide_eq_true_eq] at h1 h2 ⊢
  rcases h1 with h1 | ⟨h1a, h1b⟩ <;> rcases h2 with h2 | ⟨h2a, h2b⟩
  · exact Or.inl (lt_trans h1 h2)
  · exact Or.inl (by omega)
  · exact Or.inl (by omega)
  · exact Or.inr ⟨by omega, PFloat.leb_trans _ _ _ h1b h2b⟩

lemma rowLe_total : ∀ r1 r2 : ResultRow, (rowLe r1 r2 || rowLe r2 r1) = true := by
  intro r1 r2
  simp only [rowLe, Bool.or_eq_true, Bool.and_eq_true, decide_eq_true_eq]
  rcases Nat.lt_trichotomy (statusKey r1.Status) (statusKey r2.Status) with h | h | h
  · exact Or.inl (Or.inl h)
  · have ht := PFloat.leb_total r1.BufferWaktuJam r2.BufferWaktuJam
    simp only [Bool.or_eq_true] at ht
    rcases ht with hb | hb
    · exact Or.inl (Or.inr ⟨h, hb⟩)
    · exact Or.inr (Or.inr ⟨h.symm, hb⟩)
  · exact Or.inr (Or.inl h)

lemma statusKey_le_zero {s : String} (h : statusKey s ≤ 0) : s = "Merah" := by
  unfold statusKey at h
  split_ifs at h with h1 h2 h3
  · exact h1
  all_goals omega

lemma statusKey_le_one {s : String} (h : statusKey s ≤ 1) :
    s = "Merah" ∨ s = "Kuning" := by
  unfold statusKey at h
  split_ifs at h with h1 h2 h3
  · exact Or.inl h1
  · exact Or.inr h2
  all_goals omega

/-- C7: the displayed table is a permutation of the computed rows ordered
most-urgent-first: every `'Merah'` row precedes every non-`'Merah'` row,
every `'Kuning'` row is preceded only by `'Merah'`/`'Kuning'` rows, and rows
of equal status appear in ascending order of their buffer-time column. -/
theorem dashboard_sort_ordering :
    ∀ rows : List ResultRow,
      (sortDashboard rows).Perm rows ∧
      (sortDashboard rows).Pairwise (fun r1 r2 =>
        (r2.Status = "Merah" → r1.Status = "Merah") ∧
        (r2.Status = "Kuning" → r1.Status = "Merah" ∨ r1.Status = "Kuning") ∧
        (r1.Status = r2.Status →
          r1.BufferWaktuJam.leb r2.BufferWaktuJam = true)) := by
  intro rows
  constructor
  · exact List.mergeSort_perm rows rowLe
  · refine (List.sorted_mergeSort rowLe_trans rowLe_total rows).imp ?_
    intro r1 r2 h
    simp only [rowLe, Bool.or_eq_true, Bool.and_eq_true, decide_eq_true_eq] at h
    refine ⟨?_, ?_, ?_⟩
    · intro h2
      have hk2 : statusKey r2.Status = 0 := by rw [h2]; decide
      rcases h with h | ⟨ha, _⟩
      · rw [hk2] at h
        exact absurd h (Nat.not_lt_zero _)
      · exact statusKey_le_zero (by rw [ha, hk2])
    · intro h2
      have hk2 : statusKey r2.Status = 1 := by rw [h2]; decide
      rcases h with h | ⟨ha, _⟩
      · rw [hk2] at h
        exact statusKey_le_one (by omega)
      · exact statusKey_le_one (by rw [ha, hk2])
    · intro h2
      have hk : statusKey r1.Status = statusKey r2.Status := by rw [h2]
      rcases h with h | ⟨_, hb⟩
      · rw [hk] at h
        exact absurd h (lt_irrefl _)
      · exact hb

theorem dashboard_sort_ordering_witness :
    (sortDashboard [resultRow obsC "Hijau", resultRow obsB "Merah"]).Perm
      [resultRow obsC "Hijau", resultRow obsB "Merah"] ∧
    (sortDashboard [resultRow obsC "Hijau", resultRow obsB "Merah"]).Pairwise
      (fun r1 r2 =>
        (r2.Status = "Merah" → r1.Status = "Merah") ∧
        (r2.Status = "Kuning" → r1.Status = "Merah" ∨ r1.Status = "Kuning") ∧
        (r1.Status = r2.Status →
          r1.BufferWaktuJam.leb r2.BufferWaktuJam = true)) :=
  dashboard_sort_ordering _

/-- C3 counterexample: in the batch path the observation with zero stock and
zero consumption rate (non-negative inputs, rate exactly 0) gets depletion
time `NaN`, not `+inf` — `0 / 0` is `NaN` in pandas float division — so the
claim "depletion_time is +infinity" is false at this input. -/
theorem zero_rate_zero_stock_cex :
    obs00.konsumsi_per_jam = 0 ∧ (0:ℚ) ≤ obs00.stok_tersedia ∧
    (0:ℚ) ≤ obs00.lead_time ∧
    waktu_habis_stok obs00 = PFloat.nan ∧
    waktu_habis_stok obs00 ≠ PFloat.posInf ∧
    selisih_waktu obs00 = PFloat.nan ∧
    selisih_waktu obs00 ≠ PFloat.posInf := by
  have hw : waktu_habis_stok obs00 = PFloat.nan := by
    norm_num [waktu_habis_stok, obs00]
  have hs : selisih_waktu obs00 = PFloat.nan := by
    rw [selisih_waktu, hw]
    rfl
  refine ⟨rfl, by norm_num [obs00], by norm_num [obs00], hw, ?_, hs, ?_⟩
  · rw [hw]
    decide
  · rw [hs]
    decide

/-- C3 amended: with zero consumption rate the simulation path always yields
`+inf` depletion and buffer times; the batch path yields `+inf` whenever the
stock is positive (and `NaN` only in the 0/0 corner); in every such case the
deterministic Critical branch does not trigger and the classifier is
consulted (witnessed by a failing classifier whose error is returned);
division never raises, and the depletion time is never negative for
non-negative inputs. -/
theorem zero_rate_infinity_amended :
    (∀ stok konsumsi lead : ℚ, konsumsi = 0 →
       sim_waktu_habis_stok stok konsumsi = PFloat.posInf ∧
       sim_selisih_waktu stok konsumsi lead = PFloat.posInf ∧
       (sim_selisih_waktu stok konsumsi lead).le0 = false)
  ∧ (∀ o : Obs, o.konsumsi_per_jam = 0 → 0 < o.stok_tersedia →
       waktu_habis_stok o = PFloat.posInf ∧ selisih_waktu o = PFloat.posInf ∧
       (selisih_waktu o).le0 = false)
  ∧ (∀ o : Obs, o.konsumsi_per_jam = 0 → 0 ≤ o.stok_tersedia →
       (selisih_waktu o).le0 = false ∧
       ∀ e : String, get_status (fun _ => Except.error e) o = Except.error e)
  ∧ (∀ o : Obs, 0 ≤ o.stok_tersedia → 0 ≤ o.konsumsi_per_jam →
       (waktu_habis_stok o).isNeg = false)
  ∧ (∀ (stok konsumsi lead : ℚ) (e seksi komponen : String), konsumsi = 0 →
       simulate (fun _ => Except.error e) seksi komponen stok konsumsi lead =
         Except.error e) := by
  have hsim : ∀ stok konsumsi lead : ℚ, konsumsi = 0 →
      sim_waktu_habis_stok stok konsumsi = PFloat.posInf ∧
      sim_selisih_waktu stok konsumsi lead = PFloat.posInf ∧
      (sim_selisih_waktu stok konsumsi lead).le0 = false := by
    intro stok konsumsi lead h
    have h1 : sim_waktu_habis_stok stok konsumsi = PFloat.posInf := by
      simp [sim_waktu_habis_stok, h]
    have h2 : sim_selisih_waktu stok konsumsi lead = PFloat.posInf := by
      rw [sim_selisih_waktu, h1]
      rfl
    exact ⟨h1, h2, by rw [h2]; rfl⟩
  have hbatch : ∀ o : Obs, o.konsumsi_per_jam = 0 → 0 < o.stok_tersedia →
      waktu_habis_stok o = PFloat.posInf ∧ selisih_waktu o = PFloat.posInf ∧
      (selisih_waktu o).le0 = false := by
    intro o h hpos
    have h1 : waktu_habis_stok o = PFloat.posInf := by
      simp [waktu_habis_stok, h, hpos]
    have h2 : selisih_waktu o = PFloat.posInf := by
      rw [selisih_waktu, h1]
      rfl
    exact ⟨h1, h2, by rw [h2]; rfl⟩
  refine ⟨hsim, hbatch, ?_, ?_, ?_⟩
  · intro o h hnn
    have hle : (selisih_waktu o).le0 = false := by
      rcases lt_or_eq_of_le hnn with hpos | hzero
      · exact (hbatch o h hpos).2.2
      · have h1 : waktu_habis_stok o = PFloat.nan := by
          simp [waktu_habis_stok, h, ← hzero]
        have h2 : selisih_waktu o = PFloat.nan := by
          rw [selisih_waktu, h1]
          rfl
        rw [h2]
        rfl
    exact ⟨hle, fun e => by simp [get_status, hle]⟩
  · intro o hstok hkons
    by_cases h : o.konsumsi_per_jam = 0
    · rcases lt_or_eq_of_le hstok with hpos | hzero
      · rw [(hbatch o h hpos).1]
        rfl
      · have h1 : waktu_habis_stok o = PFloat.nan := by
          simp [waktu_habis_stok, h, ← hzero]
        rw [h1]
        rfl
    · have h1 : waktu_habis_stok o = PFloat.fin
          (o.stok_tersedia / o.konsumsi_per_jam) := by
        simp [waktu_habis_stok, h]
      rw [h1]
      simp only [PFloat.isNeg, decide_eq_false_iff_not, not_lt]
      exact div_nonneg hstok hkons
  · intro stok konsumsi lead e seksi komponen h
    have h2 := (hsim stok konsumsi lead h).2.2
    simp [simulate, h2]

theorem zero_rate_infinity_amended_witness :
    (sim_waktu_habis_stok 50 0 = PFloat.posInf ∧
     sim_selisih_waktu 50 0 5 = PFloat.posInf ∧
     (sim_selisih_waktu 50 0 5).le0 = false) ∧
    (waktu_habis_stok ⟨"2024-01-01", "Assy", "Bolt", 50, 0, 5⟩ = PFloat.posInf ∧
     selisih_waktu ⟨"2024-01-01", "Assy", "Bolt", 50, 0, 5⟩ = PFloat.posInf ∧
     (selisih_waktu ⟨"2024-01-01", "Assy", "Bolt", 50, 0, 5⟩).le0 = false) ∧
    (waktu_habis_stok obsA).isNeg = false :=
  ⟨zero_rate_infinity_amended.1 50 0 5 rfl,
   zero_rate_infinity_amended.2.1 ⟨"2024-01-01", "Assy", "Bolt", 50, 0, 5⟩
     rfl (by norm_num),
   zero_rate_infinity_amended.2.2.2.1 obsA (by norm_num [obsA])
     (by norm_num [obsA])⟩

/-- C6 counterexample: a two-row batch where the first row is
deterministically `'Merah'` and the second row consults a classifier that
fails.  The whole call returns the classifier error and produces no row for
the first observation either — while the one-row batch with the same first
observation succeeds.  The failure is therefore not isolated to the failing
observation: it aborts the evaluation of the other observation. -/
theorem batch_abort_cex :
    (selisih_waktu obsB).le0 = true ∧
    (selisih_waktu obsC).le0 = false ∧
    process_dashboard_data (fun _ => Except.error "classifier down")
      [obsB, obsC] = Except.error "classifier down" ∧
    process_dashboard_data (fun _ => Except.error "classifier down") [obsB] =
      Except.ok [resultRow obsB "Merah"] := by
  refine ⟨obsB_buffer_nonpos, obsC_buffer_pos, ?_, ?_⟩
  · simp [process_dashboard_data, evalRow, get_status,
      obsB_buffer_nonpos, obsC_buffer_pos]
  · simp [process_dashboard_data, evalRow, get_status, obsB_buffer_nonpos]

/-- C6 amended: `process_dashboard_data` evaluates the batch all-or-nothing.
If every observation whose buffer is positive gets a successful
classification, the batch returns one result row per observation; if the
classifier fails on any consulted observation, the whole batch evaluation
returns an error and no observation receives a status. -/
theorem batch_failure_propagation_amended :
    (∀ (model : Model) (rows : List Obs),
       (∀ o ∈ rows, (selisih_waktu o).le0 = false →
          ∃ l, model (modelInputOf o) = Except.ok l) →
       ∃ out, process_dashboard_data model rows = Except.ok out ∧
         out.length = rows.length)
  ∧ (∀ (model : Model) (rows : List Obs) (o : Obs) (e : String),
       o ∈ rows → (selisih_waktu o).le0 = false →
       model (modelInputOf o) = Except.error e →
       ∃ e2, process_dashboard_data model rows = Except.error e2) := by
  constructor
  · intro model rows
    induction rows with
    | nil => exact fun _ => ⟨[], rfl, rfl⟩
    | cons o rest ih =>
      intro hmodel
      have hhead : ∃ r, evalRow model o = Except.ok r := by
        cases h : (selisih_waktu o).le0 with
        | true => exact ⟨resultRow o "Merah", by simp [evalRow, get_status, h]⟩
        | false =>
          rcases hmodel o (by simp) h with ⟨l, hl⟩
          exact ⟨resultRow o (if l = "Merah" then "Kuning" else l),
            by simp [evalRow, get_status, h, hl]⟩
      rcases hhead with ⟨r, hr⟩
      rcases ih (fun o2 ho2 => hmodel o2 (by simp [ho2])) with ⟨out, hout, hlen⟩
      exact ⟨r :: out, by simp [process_dashboard_data, hr, hout],
        by simp [hlen]⟩
  · intro model rows o e ho hbuf hm
    revert ho
    induction rows with
    | nil =>
      intro ho
      simp at ho
    | cons p rest ih =>
      intro ho
      rcases List.mem_cons.mp ho with rfl | ho2
      · exact ⟨e, by simp [process_dashboard_data, evalRow, get_status, hbuf, hm]⟩
      · cases hev : evalRow model p with
        | error e3 => exact ⟨e3, by simp [process_dashboard_data, hev]⟩
        | ok r =>
          rcases ih ho2 with ⟨e2, he2⟩
          exact ⟨e2, by simp [process_dashboard_data, hev, he2]⟩

theorem batch_failure_propagation_amended_witness :
    ∃ out, process_dashboard_data (fun _ => Except.ok "Hijau") [obsB, obsC] =
      Except.ok out ∧ out.length = [obsB, obsC].length :=
  batch_failure_propagation_amended.1 _ [obsB, obsC]
    (fun _ _ _ => ⟨"Hijau", rfl⟩)

/-- C10 counterexample: two observations with the same status whose exact
buffers 5/4 = 1.25 and 41/32 = 1.28125 agree through the first decimal digit
(both have floor of ten times the buffer equal to 12) yet round to different
one-decimal values (1.2 by half-to-even versus 1.3), so the sort comparison
orders them strictly instead of treating them as equal: the claim that
buffers differing only beyond the first decimal compare as equal is false at
this input. -/
theorem rounding_tie_cex :
    selisih_waktu obsP = PFloat.fin (5/4) ∧
    selisih_waktu obsQ = PFloat.fin (41/32) ∧
    (⌊(10:ℚ) * (5/4)⌋ = 12 ∧ ⌊(10:ℚ) * (41/32)⌋ = 12 ∧ (5/4 : ℚ) ≠ 41/32) ∧
    evalRow (fun _ => Except.ok "Hijau") obsP =
      Except.ok (resultRow obsP "Hijau") ∧
    evalRow (fun _ => Except.ok "Hijau") obsQ =
      Except.ok (resultRow obsQ "Hijau") ∧
    (resultRow obsP "Hijau").Status = (resultRow obsQ "Hijau").Status ∧
    (resultRow obsP "Hijau").BufferWaktuJam = PFloat.fin (6/5) ∧
    (resultRow obsQ "Hijau").BufferWaktuJam = PFloat.fin (13/10) ∧
    rowLe (resultRow obsQ "Hijau") (resultRow obsP "Hijau") = false := by
  have hbP : selisih_waktu obsP = PFloat.fin (5/4) := by
    norm_num [selisih_waktu, waktu_habis_stok, PFloat.subFin, obsP]
  have hbQ : selisih_waktu obsQ = PFloat.fin (41/32) := by
    norm_num [selisih_waktu, waktu_habis_stok, PFloat.subFin, obsQ]
  have hleP : (selisih_waktu obsP).le0 = false := by
    rw [hbP]
    norm_num [PFloat.le0]
  have hleQ : (selisih_waktu obsQ).le0 = false := by
    rw [hbQ]
    norm_num [PFloat.le0]
  have hrP : (resultRow obsP "Hijau").BufferWaktuJam = PFloat.fin (6/5) := by
    show (selisih_waktu obsP).round1 = PFloat.fin (6/5)
    rw [hbP]
    norm_num [PFloat.round1, PPIC.round1, rne]
  have hrQ : (resultRow obsQ "Hijau").BufferWaktuJam = PFloat.fin (13/10) := by
    show (selisih_waktu obsQ).round1 = PFloat.fin (13/10)
    rw [hbQ]
    norm_num [PFloat.round1, PPIC.round1, rne]
  refine ⟨hbP, hbQ, ⟨by norm_num, by norm_num, by norm_num⟩, ?_, ?_, rfl,
    hrP, hrQ, ?_⟩
  · simp [evalRow, get_status, hleP]
  · simp [evalRow, get_status, hleQ]
  · simp only [rowLe, hrP, hrQ]
    norm_num [resultRow, statusKey, PFloat.leb]

/-- C10 amended: every numeric cell of a returned dashboard row equals the
exact computed value rounded to one decimal place (half to even), and the
urgency ordering breaks ties on this rounded buffer: two rows with equal
status and equal rounded buffer compare as equal in both directions.  Exact
buffers agreeing only through the first decimal digit may still round to
different one-decimal values and then compare strictly. -/
theorem rounding_and_tie_break_amended :
    (∀ (model : Model) (o : Obs) (r : ResultRow),
       evalRow model o = Except.ok r →
       r.Stok = round1 o.stok_tersedia ∧
       r.SisaWaktuJam = (waktu_habis_stok o).round1 ∧
       r.LeadTimeJam = round1 o.lead_time ∧
       r.BufferWaktuJam = (selisih_waktu o).round1)
  ∧ (∀ r1 r2 : ResultRow, r1.Status = r2.Status →
       r1.BufferWaktuJam = r2.BufferWaktuJam →
       rowLe r1 r2 = true ∧ rowLe r2 r1 = true) := by
  constructor
  · intro model o r hr
    unfold evalRow at hr
    cases hg : get_status model o with
    | error e =>
      rw [hg] at hr
      cases hr
    | ok s =>
      rw [hg] at hr
      injection hr with hr2
      rw [← hr2]
      exact ⟨rfl, rfl, rfl, rfl⟩
  · intro r1 r2 hs hb
    have hk : statusKey r1.Status = statusKey r2.Status := by rw [hs]
    constructor
    · simp [rowLe, hk, hb, PFloat.leb_refl]
    · simp [rowLe, hk, hb, PFloat.leb_refl]

theorem rounding_and_tie_break_amended_witness :
    evalRow (fun _ => Except.ok "Hijau") obsC =
      Except.ok (resultRow obsC "Hijau") ∧
    (resultRow obsC "Hijau").BufferWaktuJam = (selisih_waktu obsC).round1 := by
  have h : evalRow (fun _ => Except.ok "Hijau") obsC =
      Except.ok (resultRow obsC "Hijau") := by
    simp [evalRow, get_status, obsC_buffer_pos]
  exact ⟨h, (rounding_and_tie_break_amended.1 _ obsC _ h).2.2.2⟩

end PPIC
